import Mathlib

/-!
Verification of the HomeGuard AI chat orchestration core, shallowly embedded
from `backend/app/main.py` (conversation/incident state machine) and the
triage pipeline of `backend/app/rag_service.py`.

Modelling conventions:
* Python strings are Lean `String`; `in` (substring), `.lower()`, `.strip()`,
  `.startswith(...)` are `strContains`, `lowerStr`, `trimStr`,
  `strStarts` (source texts are ASCII, where these agree with Python).
* The module-level dicts `conversations` / `incidents` /
  `troubleshooting_sessions` become the fields of `ServerState`.
  `conversations` is a total map with default `[]`; `incidents` keeps
  insertion order as a list (Python dicts iterate in insertion order);
  `troubleshooting_sessions` is an insertion-ordered association list with
  dict update-in-place semantics (`alSet` / `alModify` / `alErase`).
* `uuid.uuid4()` is replaced by a per-state counter `nextUuid`; all that
  the code relies on is freshness of ids.  `datetime.now()` timestamps and
  message `metadata` dicts are not modelled: no verified property reads them.
* The language-model oracle (`rag_service.llm`) is abstracted as the
  `Oracle` structure: `llmAvailable` models `self.llm is not None`; the
  response of each distinct `llm.invoke` call site is a function of the
  data interpolated into its prompt, returning `Except Unit String` where
  the call can raise.  For `generate_troubleshooting_steps` the
  invoke + greeting-cleanup + exception-fallback pipeline is absorbed into
  the single abstract function `genSteps` (its result is an arbitrary
  string either way, and no verified property inspects the cleanup).
* `json.loads` on the regex-extracted block in `triage_issue` is abstracted
  as `Oracle.jsonLoads : String → Option TriageResult`; `none` models a
  raised `JSONDecodeError` (caught by the surrounding `except`), `some`
  models a successful parse into the expected dict shape.
* Pydantic's `ChatResponse` (models.py) has no `incident_details` field, so
  the `incident_details=...` keyword passed in main.py is silently dropped;
  the model therefore omits it.
-/

set_option maxRecDepth 16384

namespace HomeGuard

/-- Python `s.lower()` (sources are ASCII, where the two agree).  List-based
so that proofs can evaluate it (core `String.toLower` uses well-founded
position recursion, which the kernel cannot reduce). -/
def lowerStr (s : String) : String :=
  String.mk (s.data.map Char.toLower)

/-- Python `s.strip()` on ASCII whitespace, list-based for the same reason. -/
def trimStr (s : String) : String :=
  String.mk (((s.data.dropWhile Char.isWhitespace).reverse.dropWhile
    Char.isWhitespace).reverse)

/-- Worker for `strContains`. -/
def containsAux (needle : List Char) : List Char → Bool
  | [] => needle.isEmpty
  | c :: rest => List.isPrefixOf needle (c :: rest) || containsAux needle rest

/-- Substring test: Python `needle in hay`. -/
def strContains (hay needle : String) : Bool :=
  containsAux needle.data hay.data

/-- Python `hay.startswith(needle)`. -/
def strStarts (hay needle : String) : Bool :=
  List.isPrefixOf needle.data hay.data

/-- One entry of the `conversations` dict values (main.py `_add_message`):
role, content, sender_id, sender_type.  Timestamp/metadata unmodelled. -/
structure Message where
  role : String
  content : String
  sender_id : String
  sender_type : String
deriving Repr, DecidableEq, Inhabited

/-- An entry of the `incidents` dict (main.py `create_incident`).
`created_at` is unmodelled. -/
structure Incident where
  id : String
  property_id : String
  conversation_id : String
  description : String
  category : String
  severity : String
  status : String
  ai_suggested : Bool
  awaiting_more_info : Bool
deriving Repr, DecidableEq, Inhabited

/-- One element of a session's `steps_tried` list (timestamp unmodelled). -/
structure Step where
  step : String
  tenant_response : String
deriving Repr, DecidableEq, Inhabited

/-- An entry of the `troubleshooting_sessions` dict (`started_at` unmodelled). -/
structure Session where
  issue : String
  category : String
  attempts : Nat
  steps_tried : List Step
deriving Repr, DecidableEq, Inhabited

/-- Result dict of `rag_service.triage_issue`. -/
structure TriageResult where
  category : String
  severity : String
  suggested_actions : List String
  confidence : ℚ
deriving Repr, DecidableEq, Inhabited

/-- Request body of POST /api/chat (models.py `ChatRequest`). -/
structure ChatRequest where
  conversation_id : String
  property_id : String
  user_id : String
  user_role : String
  message : String
deriving Repr, DecidableEq, Inhabited

/-- Response body of POST /api/chat (models.py `ChatResponse`). -/
structure ChatResponse where
  response : String
  sources : Option (List String)
  incident_created : Bool
  incident_id : Option String
deriving Repr, DecidableEq, Inhabited

/-- The module-level mutable state of main.py (calendar_events out of scope). -/
structure ServerState where
  conversations : String → List Message
  incidents : List Incident
  sessions : List (String × Session)
  nextUuid : Nat

/-- Empty module state at process start. -/
def initState : ServerState :=
  { conversations := fun _ => [], incidents := [], sessions := [], nextUuid := 0 }

/-! ### Association-list operations with Python-dict semantics -/

/-- Dict lookup `d.get(k)`: value of the first (unique) entry with this key. -/
def alGet : List (String × Session) → String → Option Session
  | [], _ => none
  | p :: rest, k => if p.1 == k then some p.2 else alGet rest k

/-- Dict membership `k in d`. -/
def alAny : List (String × Session) → String → Bool
  | [], _ => false
  | p :: rest, k => p.1 == k || alAny rest k

/-- In-place mutation of the value at a key (no effect if the key is absent). -/
def alModify : List (String × Session) → String → (Session → Session) →
    List (String × Session)
  | [], _, _ => []
  | p :: rest, k, g => (if p.1 == k then (p.1, g p.2) else p) :: alModify rest k g

/-- Dict assignment `d[k] = v` (an overwrite keeps the original position,
as Python dicts do). -/
def alSet (l : List (String × Session)) (k : String) (v : Session) :
    List (String × Session) :=
  if alAny l k then alModify l k (fun _ => v) else l ++ [(k, v)]

/-- Dict deletion `del d[k]` (no effect if absent, matching the source's
`if conversation_id in troubleshooting_sessions` guard). -/
def alErase : List (String × Session) → String → List (String × Session)
  | [], _ => []
  | p :: rest, k => if p.1 == k then alErase rest k else p :: alErase rest k

/-! ### Intent classifiers (main.py) -/

/-- Keyword list of `is_question`. -/
def question_words : List String :=
  ["how", "what", "where", "when", "why", "can you", "tell me", "explain",
   "do you know", "show me", "help me", "i need to know", "how do i", "how to",
   "what is", "what are", "where is", "where are"]

/-- Prefix tuple of `is_question`'s `startswith`. -/
def question_starts : List String :=
  ["how", "what", "where", "when", "why", "can", "tell", "show"]

/-- main.py `is_question`. -/
def is_question (msg : String) : Bool :=
  let msg_lower := trimStr (lowerStr msg)
  strContains msg "?" || question_words.any (fun w => strContains msg_lower w) ||
    question_starts.any (fun w => strStarts msg_lower w)

/-- Keyword list of `is_issue_report`. -/
def issue_keywords : List String :=
  ["broken", "not working", "problem", "issue", "faulty", "noise", "leak",
   "flicker", "doesn\x27t work", "won\x27t work", "not functioning", "malfunction",
   "damaged", "out of order", "not responding", "stopped working",
   "not turning on", "error"]

/-- main.py `is_issue_report`. -/
def is_issue_report (msg : String) : Bool :=
  issue_keywords.any (fun k => strContains (lowerStr msg) k)

/-- Keyword list of `is_unfixable_issue`. -/
def unfixable_keywords : List String :=
  ["stolen", "theft", "robbed", "burglary", "break-in", "broken into",
   "vandalized", "vandalism", "graffiti", "smashed", "destroyed",
   "fire", "flood", "water damage", "structural", "foundation",
   "ceiling collapse", "gas leak", "carbon monoxide", "smoke",
   "electrical fire", "lock broken", "door broken", "window broken",
   "shattered", "missing", "disappeared", "gone", "not there"]

/-- main.py `is_unfixable_issue`. -/
def is_unfixable_issue (msg : String) : Bool :=
  unfixable_keywords.any (fun k => strContains (lowerStr msg) k)

/-- Keyword list of `is_escalation_request`. -/
def escalation_keywords : List String :=
  ["yes", "please", "go ahead", "sure", "ok", "okay", "yes please",
   "yes do it", "escalate", "escalate it", "contact landlord",
   "notify landlord", "tell landlord"]

/-- main.py `is_escalation_request`. -/
def is_escalation_request (msg : String) : Bool :=
  escalation_keywords.any (fun k => strContains (trimStr (lowerStr msg)) k)

/-- Offer phrases scanned by `last_message_offered_escalation`. -/
def escalation_phrases : List String :=
  ["would you like me to escalate", "escalate this to your landlord",
   "escalate to your landlord", "escalate this"]

/-- main.py `last_message_offered_escalation`: reverse-scan the conversation,
excluding the just-appended user message, for the most recent AI message and
test it for an escalation-offer phrase. -/
def last_message_offered_escalation (st : ServerState) (conversation_id : String) : Bool :=
  let msgs := st.conversations conversation_id
  if msgs.length < 2 then false
  else
    match msgs.dropLast.reverse.find?
        (fun m => m.role == "assistant" || m.sender_type == "AI") with
    | none => false
    | some m => if m.content == "" then false
        else escalation_phrases.any (fun p => strContains (lowerStr m.content) p)

/-! ### Resolution detection keyword sets (main.py chat, troubleshooting branch) -/

/-- Negative resolution indicators (checked first; they override positives). -/
def negative_indicators : List String :=
  ["doesn\x27t work", "not working", "still doesn\x27t", "still not",
   "didn\x27t work", "won\x27t work", "isn\x27t working", "not fixed",
   "not resolved", "didn\x27t help", "no change", "same problem", "still broken"]

/-- Positive resolution phrases (only consulted when no negative indicator hits). -/
def positive_indicators : List String :=
  ["it works", "it\x27s working", "all good", "ok now", "solved",
   "yes it works", "fixed now", "working now", "resolved", "it\x27s fixed"]

/-- The source's effective resolution test: `is_resolved and not has_negative`
(with `is_resolved` itself only computed when `has_negative` is false). -/
def resolutionPositive (msg : String) : Bool :=
  let msg_lower := trimStr (lowerStr msg)
  !(negative_indicators.any (fun n => strContains msg_lower n)) &&
    positive_indicators.any (fun p => strContains msg_lower p)

/-! ### Triage pipeline (rag_service.py) -/

/-- Model of `re.search(r'\x7b[^\x7d]+\x7d', response, re.DOTALL)`: the leftmost
opening brace that is followed by at least one non-brace character and then a
closing brace yields the match; otherwise no match. -/
def jsonMatchAux : List Char → Option String
  | [] => none
  | c :: rest =>
    if c = '{' then
      let body := rest.takeWhile (fun d => d ≠ '}')
      let after := rest.drop body.length
      if body ≠ [] && after.head? == some '}' then
        some (String.mk ('{' :: (body ++ ['}'])))
      else jsonMatchAux rest
    else jsonMatchAux rest

/-- First JSON-looking braced block of a string, if any. -/
def jsonMatch (s : String) : Option String :=
  jsonMatchAux s.data

/-- The language-model / retrieval oracle boundary (see module docstring). -/
structure Oracle where
  llmAvailable : Bool
  triageRaw : String → Except Unit String
  jsonLoads : String → Option TriageResult
  genSteps : String → String → List String → String
  query : String → String → List Message → Except Unit (String × List String)
  generalConv : String → String → List Message → Except Unit String

/-- rag_service.py `_parse_triage_fallback`: deterministic keyword classifier
(the `response` argument is accepted but unused, as in the source). -/
def parse_triage_fallback (_response description : String) : TriageResult :=
  let dl := lowerStr description
  let category :=
    if ["ac", "air conditioning", "cooling", "air conditioner"].any
        (fun w => strContains dl w) then "AC"
    else if ["heat", "heater", "heating", "warm"].any (fun w => strContains dl w) then
      "HEATER"
    else if ["light", "lamp", "bulb", "flicker"].any (fun w => strContains dl w) then
      "LIGHTS"
    else if ["water", "leak", "pipe", "faucet", "toilet"].any
        (fun w => strContains dl w) then "PLUMBING"
    else if ["wifi", "internet", "router", "network"].any
        (fun w => strContains dl w) then "ROUTER"
    else if ["appliance", "oven", "washer", "dryer", "dishwasher"].any
        (fun w => strContains dl w) then "APPLIANCES"
    else "OTHER"
  let severity :=
    if ["urgent", "emergency", "broken", "not working", "won\x27t"].any
        (fun w => strContains dl w) then "high"
    else if ["sometimes", "occasionally", "minor", "small"].any
        (fun w => strContains dl w) then "low"
    else "medium"
  { category := category, severity := severity,
    suggested_actions := ["Schedule inspection", "Contact tenant for more details"],
    confidence := 0.6 }

/-- The static result of `triage_issue`'s outer `except Exception` branch. -/
def triageExceptResult : TriageResult :=
  { category := "OTHER", severity := "medium",
    suggested_actions := ["Contact landlord"], confidence := 0.3 }

/-- rag_service.py `triage_issue`: no llm → static 0.5 result; llm raising, or
`json.loads` raising on the extracted block, is caught by the outer `except`
and yields the static 0.3 result; only a response with no braced block at all
reaches `_parse_triage_fallback`. -/
def triageIssue (o : Oracle) (description : String) : TriageResult :=
  if !o.llmAvailable then
    { category := "OTHER", severity := "medium",
      suggested_actions := ["Contact landlord for assistance"], confidence := 0.5 }
  else
    match o.triageRaw description with
    | Except.error _ => triageExceptResult
    | Except.ok response =>
      match jsonMatch response with
      | none => parse_triage_fallback response description
      | some block =>
        match o.jsonLoads block with
        | some result => result
        | none => triageExceptResult

/-! ### Incident store and troubleshooting session manager (main.py) -/

/-- main.py `create_incident`: triages the bare description, appends the
troubleshooting history when non-empty, allocates a fresh id and appends the
record with `status="reported"` and `awaiting_more_info=False`. -/
def create_incident (o : Oracle) (st : ServerState)
    (property_id conversation_id description troubleshooting_history : String) :
    ServerState × String :=
  let triage := triageIssue o description
  let full_description :=
    if troubleshooting_history ≠ "" then
      description ++ "\n\n=== TROUBLESHOOTING ATTEMPTS ===\n" ++ troubleshooting_history
    else description
  let incident_id := Nat.repr st.nextUuid
  let inc : Incident :=
    { id := incident_id, property_id := property_id,
      conversation_id := conversation_id, description := full_description,
      category := triage.category, severity := triage.severity,
      status := "reported", ai_suggested := true, awaiting_more_info := false }
  ({ st with incidents := st.incidents ++ [inc], nextUuid := st.nextUuid + 1 },
   incident_id)

/-- main.py `update_incident`: append an additional-details block and clear
`awaiting_more_info`; silent no-op on an unknown id. -/
def update_incident (st : ServerState) (incident_id additional_info : String) :
    ServerState :=
  if st.incidents.any (fun i => i.id == incident_id) then
    { st with incidents := st.incidents.map (fun i =>
        if i.id == incident_id then
          { i with description := i.description ++ "\n\nAdditional details: " ++ additional_info,
                   awaiting_more_info := false }
        else i) }
  else st

/-- main.py `find_open_incident`: first incident (in insertion order) of this
conversation with `status == "reported"` and `awaiting_more_info` truthy. -/
def find_open_incident (st : ServerState) (conversation_id : String) : Option String :=
  (st.incidents.find? (fun inc =>
      inc.conversation_id == conversation_id && inc.status == "reported" &&
        inc.awaiting_more_info)).map (fun inc => inc.id)

/-- main.py `incidents[incident_id]` lookup (total here via a default; the
source only performs it on ids it just created). -/
def getIncident (st : ServerState) (incident_id : String) : Incident :=
  (st.incidents.find? (fun i => i.id == incident_id)).getD default

/-- main.py `start_troubleshooting`. -/
def start_troubleshooting (st : ServerState) (conversation_id issue_description category : String) :
    ServerState :=
  let sess : Session :=
    { issue := issue_description, category := category, attempts := 0, steps_tried := [] }
  { st with sessions := alSet st.sessions conversation_id sess }

/-- main.py `add_troubleshooting_step`: increment attempts and append the step
(no-op when no session exists, matching the source's membership guard). -/
def add_troubleshooting_step (st : ServerState) (conversation_id step tenant_response : String) :
    ServerState :=
  { st with sessions := alModify st.sessions conversation_id (fun s =>
      { s with attempts := s.attempts + 1,
               steps_tried := s.steps_tried ++ [{ step := step, tenant_response := tenant_response }] }) }

/-- main.py chat line `session["steps_tried"][-1]["tenant_response"] = request.message`,
guarded by `if session["steps_tried"]`. -/
def attach_tenant_response (st : ServerState) (conversation_id response : String) :
    ServerState :=
  { st with sessions := alModify st.sessions conversation_id (fun s =>
      if s.steps_tried = [] then s
      else { s with steps_tried :=
        s.steps_tried.dropLast ++
          [{ (s.steps_tried.getLast?.getD default) with tenant_response := response }] }) }

/-- Rendering of one step inside `get_troubleshooting_summary`. -/
def renderStep (i : Nat) (s : Step) : String :=
  "Attempt " ++ Nat.repr i ++ ":\n" ++ "  - Suggested: " ++ s.step ++ "\n" ++
    (if s.tenant_response ≠ "" then "  - Tenant response: " ++ s.tenant_response ++ "\n"
     else "")

/-- Rendering of the enumerated step list, 1-based as in the source. -/
def renderSteps : Nat → List Step → String
  | _, [] => ""
  | i, s :: rest => renderStep i s ++ renderSteps (i + 1) rest

/-- Body of main.py `get_troubleshooting_summary` for an existing session. -/
def summaryOfSession (sess : Session) : String :=
  "Original issue: " ++ sess.issue ++ "\n\n" ++
    "Troubleshooting attempts: " ++ Nat.repr sess.attempts ++ "\n\n" ++
    renderSteps 1 sess.steps_tried

/-- main.py `get_troubleshooting_summary`. -/
def get_troubleshooting_summary (st : ServerState) (conversation_id : String) : String :=
  match alGet st.sessions conversation_id with
  | none => ""
  | some sess => summaryOfSession sess

/-- main.py `end_troubleshooting`. -/
def end_troubleshooting (st : ServerState) (conversation_id : String) : ServerState :=
  { st with sessions := alErase st.sessions conversation_id }

/-- Static fallback text of `generate_troubleshooting_steps` when no llm is
configured. -/
def fallbackSteps : String :=
  "Can you check if it\x27s plugged in and powered on? Also verify there are no visible signs of damage."

/-- main.py `generate_troubleshooting_steps`; with an llm, the
invoke + cleanup + exception-fallback pipeline is the abstract `genSteps`. -/
def generate_troubleshooting_steps (o : Oracle) (issue_description category : String)
    (previous_steps : List String) : String :=
  if !o.llmAvailable then fallbackSteps
  else o.genSteps issue_description category previous_steps

/-- main.py `_add_message` (timestamp and metadata dropped, see docstring). -/
def add_message (st : ServerState) (conv_id role content sender_id sender_type : String) :
    ServerState :=
  let m : Message :=
    { role := role, content := content, sender_id := sender_id, sender_type := sender_type }
  { st with conversations := Function.update st.conversations conv_id (st.conversations conv_id ++ [m]) }

/-- main.py `_get_recent_messages` with its default `limit=3`
(`msgs[-4:-1] if len(msgs) > 1 else []`). -/
def get_recent_messages (st : ServerState) (conv_id : String) : List Message :=
  let msgs := st.conversations conv_id
  if msgs.length > 1 then (msgs.take (msgs.length - 1)).drop (msgs.length - 4)
  else []

/-! ### The chat orchestrator (main.py `chat`), split by branch -/

/-- Reverse search of the escalation-confirmation branch for the tenant's
original issue text: the most recent prior user/TENANT message with truthy
content that is not itself an escalation request; with the source's sentinel
comparison, falling back to a generic description built from the current
message. -/
def escalationIssueDescription (msgs : List Message) (current_message : String) : String :=
  let found := msgs.dropLast.reverse.find? (fun m =>
    m.role == "user" && m.sender_type == "TENANT" && m.content != "" &&
      !(is_escalation_request m.content))
  let issue_description :=
    match found with
    | some m => m.content
    | none => "User requested escalation"
  if issue_description == "User requested escalation" then
    "User requested escalation: " ++ current_message
  else issue_description

/-- Escalation-confirmation branch of `chat` (entered only when the guard
`is_escalation_request(message) and last_message_offered_escalation(...)`
holds); `st` already contains the appended user message. -/
def handleEscalationConfirm (o : Oracle) (st : ServerState) (req : ChatRequest) :
    ServerState × ChatResponse :=
  let issue_description :=
    escalationIssueDescription (st.conversations req.conversation_id) req.message
  let created := create_incident o st req.property_id req.conversation_id issue_description ""
  let st2 := created.1
  let incident_id := created.2
  let inc := getIncident st2 incident_id
  let response :=
    "I\x27ve **escalated this to your landlord**.\n\n**Ticket Created:**\n- Ticket ID: " ++
      incident_id.take 8 ++ "\n- Category: " ++ inc.category ++ "\n- Severity: " ++
      inc.severity ++
      "\n\nYour landlord has been notified and will review your request shortly."
  let st3 := add_message st2 req.conversation_id "assistant" response "ai-assistant" "AI"
  (st3, { response := response, sources := none, incident_created := true,
          incident_id := some incident_id })

/-- Open-incident continuation branch of `chat` (entered when
`find_open_incident` yielded `open_incident_id`). -/
def handleOpenIncident (st : ServerState) (req : ChatRequest) (open_incident_id : String) :
    ServerState × ChatResponse :=
  let st2 := update_incident st open_incident_id req.message
  let inc := getIncident st2 open_incident_id
  let response :=
    "Thank you for the additional information! I\x27ve updated the maintenance ticket (ID: " ++
      open_incident_id.take 8 ++ ") with these details.\n\n**Updated Ticket:**\n- Category: " ++
      inc.category ++ "\n- Severity: " ++ inc.severity ++ "\n- Description: " ++
      inc.description.take 200 ++
      "...\n\nYour landlord has been notified and will review the complete ticket shortly."
  let st3 := add_message st2 req.conversation_id "assistant" response "ai-assistant" "AI"
  (st3, { response := response, sources := none, incident_created := false,
          incident_id := some open_incident_id })

/-- Active-troubleshooting branch of `chat` (entered when
`find_troubleshooting_session` is truthy; the session is re-read from the
state, mirroring the source's live dict reference). -/
def handleTroubleshoot (o : Oracle) (st : ServerState) (req : ChatRequest) :
    ServerState × ChatResponse :=
  let msg_lower := trimStr (lowerStr req.message)
  let has_negative := negative_indicators.any (fun n => strContains msg_lower n)
  let is_resolved := !has_negative && positive_indicators.any (fun p => strContains msg_lower p)
  if is_resolved && !has_negative then
    let response := "Great! I\x27m glad that worked. If you need anything else, just let me know!"
    let st2 := add_message st req.conversation_id "assistant" response "ai-assistant" "AI"
    let st3 := end_troubleshooting st2 req.conversation_id
    (st3, { response := response, sources := none, incident_created := false,
            incident_id := none })
  else
    let st2 := attach_tenant_response st req.conversation_id req.message
    let session := (alGet st2.sessions req.conversation_id).getD default
    if 2 ≤ session.attempts then
      let troubleshooting_summary := get_troubleshooting_summary st2 req.conversation_id
      let created := create_incident o st2 req.property_id req.conversation_id
        session.issue troubleshooting_summary
      let st3 := created.1
      let incident_id := created.2
      let inc := getIncident st3 incident_id
      let response :=
        "I\x27ve tried troubleshooting this issue, but it still needs attention. I\x27ve **escalated it to your landlord** with all the details of what we\x27ve tried.\n\n**Ticket Created:**\n- Ticket ID: " ++
          incident_id.take 8 ++ "\n- Category: " ++ inc.category ++ "\n- Severity: " ++
          inc.severity ++
          "\n\nThe landlord has been notified with a complete summary of the issue and troubleshooting steps attempted. They\x27ll review and get back to you soon."
      let st4 := add_message st3 req.conversation_id "assistant" response "ai-assistant" "AI"
      let st5 := end_troubleshooting st4 req.conversation_id
      (st5, { response := response, sources := none, incident_created := true,
              incident_id := some incident_id })
    else
      let previous_steps := (session.steps_tried.filter (fun s => s.step != "")).map
        (fun s => s.step)
      let troubleshooting_steps :=
        generate_troubleshooting_steps o session.issue session.category previous_steps
      let st3 := add_troubleshooting_step st2 req.conversation_id troubleshooting_steps ""
      let response :=
        "Let me help you troubleshoot this further. Try these steps:\n\n" ++
          troubleshooting_steps ++ "\n\nLet me know if this helps or if the issue persists."
      let st4 := add_message st3 req.conversation_id "assistant" response "ai-assistant" "AI"
      (st4, { response := response, sources := none, incident_created := false,
              incident_id := none })

/-- The final fallback reply of `chat` (reached when no earlier branch
returned): the canned escalation offer when no llm is configured, else the
canned acknowledgment. -/
def freshFallbackReply (o : Oracle) (st : ServerState) (req : ChatRequest) :
    ServerState × ChatResponse :=
  let response :=
    if !o.llmAvailable then
      "I\x27m currently unable to process your message with AI assistance. Your message has been saved and the landlord will see it. Would you like me to escalate this to your landlord?"
    else "Thank you for your message. I\x27ll make sure the landlord sees this."
  let st2 := add_message st req.conversation_id "assistant" response "ai-assistant" "AI"
  (st2, { response := response, sources := none, incident_created := false,
          incident_id := none })

/-- Fresh-classification tail of `chat` (no open incident, no active session).
The source's dead `triage = rag_service.triage_issue(...)` in the unfixable
branch (its result is discarded; `create_incident` re-triages) and the unused
`is_still_broken` flag are not reproduced.  The source's two
`try: ... return` blocks with `except: pass`-style fallthrough are modelled
as nested branches with `freshFallbackReply` on each failure path (when the
query branch fails, the general-conversation guard `not msg_is_q` is
necessarily false, so control reaches the final reply in both renderings). -/
def handleFresh (o : Oracle) (st : ServerState) (req : ChatRequest) :
    ServerState × ChatResponse :=
  let msg_is_q := is_question req.message
  let msg_is_issue := is_issue_report req.message
  let msg_is_unfixable := is_unfixable_issue req.message
  if msg_is_unfixable then
    let created := create_incident o st req.property_id req.conversation_id req.message ""
    let st2 := created.1
    let incident_id := created.2
    let inc := getIncident st2 incident_id
    let response :=
      "I understand there\x27s an issue that requires immediate attention. I\x27ve **created a maintenance ticket** and **notified the landlord**.\n\n**Ticket Created:**\n- Ticket ID: " ++
        incident_id.take 8 ++ "\n- Category: " ++ inc.category ++ "\n- Severity: " ++
        inc.severity ++
        "\n\nThe landlord has been notified and will address this issue promptly."
    let st3 := add_message st2 req.conversation_id "assistant" response "ai-assistant" "AI"
    (st3, { response := response, sources := none, incident_created := true,
            incident_id := some incident_id })
  else if msg_is_issue then
    let triage := triageIssue o req.message
    let st2 := start_troubleshooting st req.conversation_id req.message triage.category
    let troubleshooting_steps := generate_troubleshooting_steps o req.message triage.category []
    let st3 := add_troubleshooting_step st2 req.conversation_id troubleshooting_steps ""
    let response :=
      "I understand you\x27re having an issue. Let me help you troubleshoot this first.\n\n**Issue detected:** " ++
        triage.category ++ "\n\nHere are some steps to try:\n\n" ++ troubleshooting_steps ++
        "\n\nPlease try these steps and let me know if the issue is resolved or if it\x27s still not working."
    let st4 := add_message st3 req.conversation_id "assistant" response "ai-assistant" "AI"
    (st4, { response := response, sources := none, incident_created := false,
            incident_id := none })
  else if msg_is_q && o.llmAvailable then
    match o.query req.property_id req.message (get_recent_messages st req.conversation_id) with
    | Except.ok result =>
      let answer := result.1
      let sources := result.2
      let st2 := add_message st req.conversation_id "assistant" answer "ai-assistant" "AI"
      (st2, { response := answer, sources := some sources,
              incident_created := false, incident_id := none })
    | Except.error _ => freshFallbackReply o st req
  else if !msg_is_q && !msg_is_issue && o.llmAvailable then
    match o.generalConv req.message req.user_role
        (get_recent_messages st req.conversation_id) with
    | Except.ok response =>
      let st2 := add_message st req.conversation_id "assistant" response "ai-assistant" "AI"
      (st2, { response := response, sources := none,
              incident_created := false, incident_id := none })
    | Except.error _ => freshFallbackReply o st req
  else freshFallbackReply o st req

/-- main.py `chat` (POST /api/chat): append the inbound message, then take the
first branch whose guard holds, in the source's precedence order. -/
def chat (o : Oracle) (st : ServerState) (req : ChatRequest) : ServerState × ChatResponse :=
  let st1 := add_message st req.conversation_id "user" req.message req.user_id req.user_role
  if req.user_role == "LANDLORD" then
    (st1, { response := "", sources := none, incident_created := false, incident_id := none })
  else if is_escalation_request req.message &&
      last_message_offered_escalation st1 req.conversation_id then
    handleEscalationConfirm o st1 req
  else
    match find_open_incident st1 req.conversation_id with
    | some open_incident_id => handleOpenIncident st1 req open_incident_id
    | none =>
      match alGet st1.sessions req.conversation_id with
      | some _ => handleTroubleshoot o st1 req
      | none => handleFresh o st1 req

/-- All module states reachable from process start by any sequence of chat
requests, under arbitrary oracle behaviour at each step. -/
inductive Reachable : ServerState → Prop
  | init : Reachable initState
  | step (o : Oracle) (req : ChatRequest) {st : ServerState} :
      Reachable st → Reachable (chat o st req).1

/-! ### Concrete instances used by witnesses and traces -/

/-- Oracle with no llm configured (`rag_service.llm is None`). -/
def oracleNoLLM : Oracle :=
  { llmAvailable := false, triageRaw := fun _ => Except.error (),
    jsonLoads := fun _ => none, genSteps := fun _ _ _ => "",
    query := fun _ _ _ => Except.error (), generalConv := fun _ _ _ => Except.error () }

/-- Oracle whose llm raises on the triage prompt. -/
def oracleRaise : Oracle :=
  { oracleNoLLM with llmAvailable := true }

/-- Oracle whose llm answers the triage prompt with text containing no braced
block. -/
def oracleNoJson : Oracle :=
  { oracleNoLLM with
    llmAvailable := true
    triageRaw := fun _ => Except.ok "no structured data here" }

/-- Fresh fixable issue report used by the concrete traces. -/
def reqIssue : ChatRequest :=
  { conversation_id := "conv1", property_id := "prop1", user_id := "tenant1",
    user_role := "TENANT", message := "the AC is broken" }

/-- Unresolved tenant reply used by the concrete traces. -/
def reqStill : ChatRequest :=
  { conversation_id := "conv1", property_id := "prop1", user_id := "tenant1",
    user_role := "TENANT", message := "still broken" }

/-- Bare affirmative reply used by the concrete traces. -/
def reqYes : ChatRequest :=
  { conversation_id := "conv1", property_id := "prop1", user_id := "tenant1",
    user_role := "TENANT", message := "yes" }

/-- Trace step 1: the fresh issue report. -/
def trace1 : ServerState × ChatResponse := chat oracleNoLLM initState reqIssue

/-- Trace step 2: first unresolved reply. -/
def trace2 : ServerState × ChatResponse := chat oracleNoLLM trace1.1 reqStill

/-- Trace step 3: second unresolved reply. -/
def trace3 : ServerState × ChatResponse := chat oracleNoLLM trace2.1 reqStill

/-- The session contents at the moment trace step 3 escalates. -/
def escalatedSession : Session :=
  { issue := "the AC is broken", category := "OTHER", attempts := 2,
    steps_tried := [{ step := fallbackSteps, tenant_response := "still broken" },
                    { step := fallbackSteps, tenant_response := "still broken" }] }

/-- Whether any assistant/AI message of the conversation contains an
escalation-offer phrase (formalises "the history contains an assistant
escalation offer"). -/
def historyHasOffer (st : ServerState) (conversation_id : String) : Bool :=
  (st.conversations conversation_id).any (fun m =>
    (m.role == "assistant" || m.sender_type == "AI") &&
      escalation_phrases.any (fun p => strContains (lowerStr m.content) p))

/-! ### Invariants and supporting lemmas -/

/-- No incident record is awaiting more info. -/
def NoOpen (st : ServerState) : Prop :=
  ∀ i ∈ st.incidents, i.awaiting_more_info = false

/-- Number of session-store entries under a given conversation key. -/
def countKey : List (String × Session) → String → Nat
  | [], _ => 0
  | p :: rest, c => (if p.1 == c then 1 else 0) + countKey rest c

/-- Every conversation key owns at most one session-store entry. -/
def SessOK (st : ServerState) : Prop :=
  ∀ c, countKey st.sessions c ≤ 1

/-- The state invariant preserved by every chat request. -/
def Inv (st : ServerState) : Prop := NoOpen st ∧ SessOK st

theorem alGet_alModify_self (l : List (String × Session)) (k : String) (g : Session → Session) :
    alGet (alModify l k g) k = (alGet l k).map g := by
  induction l with
  | nil => rfl
  | cons p rest ih =>
    by_cases hk : (p.1 == k) = true
    · simp [alGet, alModify, hk]
    · simp [alGet, alModify, hk, ih]

theorem countKey_alModify (l : List (String × Session)) (k c : String) (g : Session → Session) :
    countKey (alModify l k g) c = countKey l c := by
  induction l with
  | nil => rfl
  | cons p rest ih =>
    by_cases hk : (p.1 == k) = true
    · have hpk : p.1 = k := by simpa using hk
      simp [countKey, alModify, hk, ih, hpk]
    · simp [countKey, alModify, hk, ih]

theorem countKey_append (l₁ l₂ : List (String × Session)) (c : String) :
    countKey (l₁ ++ l₂) c = countKey l₁ c + countKey l₂ c := by
  induction l₁ with
  | nil => simp [countKey]
  | cons p rest ih =>
    have ih2 : countKey (rest.append l₂) c = countKey rest c + countKey l₂ c := ih
    simp only [List.cons_append, countKey]
    omega

theorem countKey_eq_zero_of_alAny (l : List (String × Session)) (k : String)
    (h : alAny l k = false) : countKey l k = 0 := by
  induction l with
  | nil => rfl
  | cons p rest ih =>
    simp only [alAny, Bool.or_eq_false_iff] at h
    simp [countKey, h.1, ih h.2]

theorem countKey_alSet (l : List (String × Session)) (k c : String) (v : Session)
    (h : countKey l c ≤ 1) : countKey (alSet l k v) c ≤ 1 := by
  unfold alSet
  by_cases hmem : alAny l k = true
  · simpa [hmem, countKey_alModify] using h
  · simp only [Bool.not_eq_true] at hmem
    simp only [hmem, Bool.false_eq_true, if_false, countKey_append]
    by_cases hkc : (k == c) = true
    · have hk : k = c := by simpa using hkc
      subst hk
      have hzero := countKey_eq_zero_of_alAny l k hmem
      simp [countKey, hzero]
    · have hone : countKey [(k, v)] c = 0 := by simp [countKey, hkc]
      omega

theorem countKey_alErase_le (l : List (String × Session)) (k c : String) :
    countKey (alErase l k) c ≤ countKey l c := by
  induction l with
  | nil => exact Nat.le_refl 0
  | cons p rest ih =>
    by_cases hk : (p.1 == k) = true
    · simp only [alErase, hk, if_true, countKey]
      omega
    · simp only [alErase, hk, Bool.false_eq_true, if_false, countKey]
      omega

theorem alGet_alErase_self (l : List (String × Session)) (k : String) :
    alGet (alErase l k) k = none := by
  induction l with
  | nil => rfl
  | cons p rest ih =>
    by_cases hk : (p.1 == k) = true
    · simpa [alErase, hk] using ih
    · simpa [alErase, alGet, hk] using ih

/-! ### Preservation of the invariant by each state operation -/

theorem noOpen_create (o : Oracle) (st : ServerState) (p c d hist : String)
    (hn : NoOpen st) : NoOpen (create_incident o st p c d hist).1 := by
  intro i hi
  simp only [create_incident, List.mem_append, List.mem_singleton] at hi
  rcases hi with hi | hi
  · exact hn i hi
  · subst hi
    rfl

theorem noOpen_update (st : ServerState) (iid info : String) (hn : NoOpen st) :
    NoOpen (update_incident st iid info) := by
  intro i hi
  unfold update_incident at hi
  split at hi
  · rcases List.mem_map.mp hi with ⟨j, hj, hji⟩
    by_cases hjid : (j.id == iid) = true
    · rw [if_pos hjid] at hji
      rw [← hji]
    · rw [if_neg hjid] at hji
      rw [← hji]
      exact hn j hj
  · exact hn i hi

theorem inv_add_message (st : ServerState) (c r m sid sty : String) (h : Inv st) :
    Inv (add_message st c r m sid sty) := h

theorem inv_create (o : Oracle) (st : ServerState) (p c d hist : String) (h : Inv st) :
    Inv (create_incident o st p c d hist).1 :=
  ⟨noOpen_create o st p c d hist h.1, h.2⟩

theorem update_incident_sessions (st : ServerState) (iid info : String) :
    (update_incident st iid info).sessions = st.sessions := by
  unfold update_incident
  split <;> rfl

theorem inv_update (st : ServerState) (iid info : String) (h : Inv st) :
    Inv (update_incident st iid info) := by
  refine ⟨noOpen_update st iid info h.1, fun c => ?_⟩
  rw [update_incident_sessions]
  exact h.2 c

theorem inv_start (st : ServerState) (c issue cat : String) (h : Inv st) :
    Inv (start_troubleshooting st c issue cat) :=
  ⟨h.1, fun key => countKey_alSet _ _ _ _ (h.2 key)⟩

theorem inv_addstep (st : ServerState) (c stepText resp : String) (h : Inv st) :
    Inv (add_troubleshooting_step st c stepText resp) := by
  refine ⟨h.1, fun key => ?_⟩
  have : countKey (add_troubleshooting_step st c stepText resp).sessions key =
      countKey st.sessions key := countKey_alModify _ _ _ _
  rw [this]
  exact h.2 key

theorem inv_attach (st : ServerState) (c resp : String) (h : Inv st) :
    Inv (attach_tenant_response st c resp) := by
  refine ⟨h.1, fun key => ?_⟩
  have : countKey (attach_tenant_response st c resp).sessions key =
      countKey st.sessions key := countKey_alModify _ _ _ _
  rw [this]
  exact h.2 key

theorem inv_end (st : ServerState) (c : String) (h : Inv st) :
    Inv (end_troubleshooting st c) :=
  ⟨h.1, fun key => Nat.le_trans (countKey_alErase_le _ _ _) (h.2 key)⟩

/-! ### Preservation of the invariant by each chat branch -/

theorem inv_handleEscalationConfirm (o : Oracle) (st : ServerState) (req : ChatRequest)
    (h : Inv st) : Inv (handleEscalationConfirm o st req).1 :=
  inv_add_message _ _ _ _ _ _ (inv_create _ _ _ _ _ _ h)

theorem inv_handleOpenIncident (st : ServerState) (req : ChatRequest) (iid : String)
    (h : Inv st) : Inv (handleOpenIncident st req iid).1 :=
  inv_add_message _ _ _ _ _ _ (inv_update _ _ _ h)

theorem inv_handleTroubleshoot (o : Oracle) (st : ServerState) (req : ChatRequest)
    (h : Inv st) : Inv (handleTroubleshoot o st req).1 := by
  simp only [handleTroubleshoot]
  split
  · exact inv_end _ _ (inv_add_message _ _ _ _ _ _ h)
  · split
    · exact inv_end _ _ (inv_add_message _ _ _ _ _ _
        (inv_create _ _ _ _ _ _ (inv_attach _ _ _ h)))
    · exact inv_add_message _ _ _ _ _ _ (inv_addstep _ _ _ _ (inv_attach _ _ _ h))

theorem inv_freshFallbackReply (o : Oracle) (st : ServerState) (req : ChatRequest)
    (h : Inv st) : Inv (freshFallbackReply o st req).1 :=
  inv_add_message _ _ _ _ _ _ h

theorem inv_handleFresh (o : Oracle) (st : ServerState) (req : ChatRequest)
    (h : Inv st) : Inv (handleFresh o st req).1 := by
  simp only [handleFresh]
  split
  · exact inv_add_message _ _ _ _ _ _ (inv_create _ _ _ _ _ _ h)
  · split
    · exact inv_add_message _ _ _ _ _ _ (inv_addstep _ _ _ _ (inv_start _ _ _ _ h))
    · split
      · split
        · exact inv_add_message _ _ _ _ _ _ h
        · exact inv_freshFallbackReply _ _ _ h
      · split
        · split
          · exact inv_add_message _ _ _ _ _ _ h
          · exact inv_freshFallbackReply _ _ _ h
        · exact inv_freshFallbackReply _ _ _ h

theorem inv_chat (o : Oracle) (st : ServerState) (req : ChatRequest) (h : Inv st) :
    Inv (chat o st req).1 := by
  simp only [chat]
  split
  · exact inv_add_message _ _ _ _ _ _ h
  · split
    · exact inv_handleEscalationConfirm _ _ _ (inv_add_message _ _ _ _ _ _ h)
    · split
      · exact inv_handleOpenIncident _ _ _ (inv_add_message _ _ _ _ _ _ h)
      · split
        · exact inv_handleTroubleshoot _ _ _ (inv_add_message _ _ _ _ _ _ h)
        · exact inv_handleFresh _ _ _ (inv_add_message _ _ _ _ _ _ h)

theorem inv_init : Inv initState := by
  constructor
  · intro i hi
    cases hi
  · intro c
    exact Nat.zero_le 1

theorem reachable_inv (st : ServerState) (h : Reachable st) : Inv st := by
  induction h with
  | init => exact inv_init
  | step o req hst ih => exact inv_chat _ _ _ ih

/-! ### Supporting lemmas for the individual claims -/

theorem find_open_of_noOpen (st : ServerState) (h : NoOpen st) (c : String) :
    find_open_incident st c = none := by
  unfold find_open_incident
  rw [List.find?_eq_none.mpr]
  · rfl
  · intro i hi
    simp [h i hi]

theorem countP_open_of_noOpen (st : ServerState) (h : NoOpen st) (c : String) :
    st.incidents.countP (fun i => i.conversation_id == c && i.awaiting_more_info) = 0 := by
  refine List.countP_eq_zero.mpr ?_
  intro i hi
  simp [h i hi]

theorem add_message_incidents (st : ServerState) (c r m sid sty : String) :
    (add_message st c r m sid sty).incidents = st.incidents := rfl

theorem add_message_sessions (st : ServerState) (c r m sid sty : String) :
    (add_message st c r m sid sty).sessions = st.sessions := rfl

theorem last_add_message (st : ServerState) (c r m sid sty : String) :
    ((add_message st c r m sid sty).conversations c).getLast? =
      some { role := r, content := m, sender_id := sid, sender_type := sty } := by
  simp [add_message, List.getLast?_concat]

theorem update_incident_length (st : ServerState) (iid info : String) :
    (update_incident st iid info).incidents.length = st.incidents.length := by
  unfold update_incident
  split
  · simp
  · rfl

theorem freshFallback_facts (o : Oracle) (st : ServerState) (req : ChatRequest) :
    (freshFallbackReply o st req).2.incident_created = false ∧
      (freshFallbackReply o st req).1.incidents = st.incidents :=
  ⟨rfl, rfl⟩

theorem handleFresh_plain (o : Oracle) (st : ServerState) (req : ChatRequest)
    (hq : is_question req.message = false) (hi : is_issue_report req.message = false)
    (hu : is_unfixable_issue req.message = false) :
    (handleFresh o st req).2.incident_created = false ∧
      (handleFresh o st req).1.incidents = st.incidents := by
  simp only [handleFresh, hq, hi, hu, Bool.false_eq_true, if_false, Bool.false_and,
    Bool.not_false, Bool.true_and]
  split
  · split
    · exact ⟨rfl, by trivial⟩
    · exact freshFallback_facts o st req
  · exact freshFallback_facts o st req

theorem handleFresh_unfixable (o : Oracle) (st : ServerState) (req : ChatRequest)
    (hu : is_unfixable_issue req.message = true) :
    (handleFresh o st req).2.incident_created = true ∧
      (handleFresh o st req).1.incidents.length = st.incidents.length + 1 ∧
      (handleFresh o st req).1.sessions = st.sessions := by
  simp only [handleFresh, hu, if_true]
  refine ⟨by trivial, ?_, by trivial⟩
  simp [create_incident, add_message]

theorem handleEscalationConfirm_facts (o : Oracle) (st : ServerState) (req : ChatRequest) :
    (handleEscalationConfirm o st req).2.incident_created = true ∧
      (handleEscalationConfirm o st req).1.incidents.length = st.incidents.length + 1 ∧
      (handleEscalationConfirm o st req).1.sessions = st.sessions := by
  refine ⟨rfl, ?_, rfl⟩
  simp [handleEscalationConfirm, create_incident, add_message]

theorem handleOpenIncident_facts (st : ServerState) (req : ChatRequest) (iid : String) :
    (handleOpenIncident st req iid).2.incident_created = false ∧
      (handleOpenIncident st req iid).1.incidents.length = st.incidents.length := by
  refine ⟨rfl, ?_⟩
  show (update_incident st iid req.message).incidents.length = st.incidents.length
  exact update_incident_length st iid req.message

theorem lmoe_false_of_no_offer (st : ServerState) (c msg uid role : String)
    (h : historyHasOffer st c = false) :
    last_message_offered_escalation (add_message st c "user" msg uid role) c = false := by
  have hconv : (add_message st c "user" msg uid role).conversations c =
      st.conversations c ++
        [{ role := "user", content := msg, sender_id := uid, sender_type := role }] := by
    simp [add_message]
  unfold last_message_offered_escalation
  rw [hconv]
  by_cases hlen : (st.conversations c ++
      [({ role := "user", content := msg, sender_id := uid,
          sender_type := role } : Message)]).length < 2
  · rw [if_pos hlen]
  · rw [if_neg hlen, List.dropLast_concat]
    cases hfind : (st.conversations c).reverse.find?
        (fun m => m.role == "assistant" || m.sender_type == "AI") with
    | none => rfl
    | some m0 =>
      have hmem : m0 ∈ st.conversations c :=
        List.mem_reverse.mp (List.mem_of_find?_eq_some hfind)
      have hpred := List.find?_some hfind
      have hno : ((m0.role == "assistant" || m0.sender_type == "AI") &&
          escalation_phrases.any (fun p => strContains (lowerStr m0.content) p)) = false := by
        by_contra hcon
        simp only [Bool.not_eq_false] at hcon
        have : historyHasOffer st c = true := by
          unfold historyHasOffer
          exact List.any_eq_true.mpr ⟨m0, hmem, hcon⟩
        rw [h] at this
        simp at this
      have hphr : escalation_phrases.any (fun p => strContains (lowerStr m0.content) p) = false := by
        rw [hpred] at hno
        simpa using hno
      by_cases hc : (m0.content == "") = true
      · simp [hc]
      · simp [hc, hphr]

theorem attach_attempts (st : ServerState) (c r : String) (sess : Session)
    (hsess : alGet st.sessions c = some sess) :
    ((alGet (attach_tenant_response st c r).sessions c).getD default).attempts =
      sess.attempts := by
  show ((alGet (alModify st.sessions c _) c).getD default).attempts = sess.attempts
  rw [alGet_alModify_self, hsess]
  by_cases hst : sess.steps_tried = [] <;> simp [hst]

/-! ### A live session is never replaced by a fresh one within a request -/

theorem attach_preserves (st : ServerState) (c r : String) (sess : Session)
    (h : alGet st.sessions c = some sess) :
    ∃ s2, alGet (attach_tenant_response st c r).sessions c = some s2 ∧
      s2.issue = sess.issue ∧ s2.category = sess.category ∧
      s2.attempts = sess.attempts := by
  have hget : alGet (attach_tenant_response st c r).sessions c = some
      (if sess.steps_tried = [] then sess
       else { sess with steps_tried := sess.steps_tried.dropLast ++
         [{ sess.steps_tried.getLast?.getD default with tenant_response := r }] }) := by
    show alGet (alModify st.sessions c _) c = _
    rw [alGet_alModify_self, h]
    rfl
  refine ⟨_, hget, ?_, ?_, ?_⟩ <;> by_cases hst : sess.steps_tried = [] <;> simp [hst]

theorem addstep_preserves (st : ServerState) (c stp resp : String) (sess : Session)
    (h : alGet st.sessions c = some sess) :
    ∃ s2, alGet (add_troubleshooting_step st c stp resp).sessions c = some s2 ∧
      s2.issue = sess.issue ∧ s2.category = sess.category ∧
      s2.attempts = sess.attempts + 1 := by
  have hget : alGet (add_troubleshooting_step st c stp resp).sessions c = some
      { sess with attempts := sess.attempts + 1, steps_tried := sess.steps_tried ++
        [{ step := stp, tenant_response := resp }] } := by
    show alGet (alModify st.sessions c _) c = _
    rw [alGet_alModify_self, h]
    rfl
  exact ⟨_, hget, rfl, rfl, rfl⟩

theorem handleOpenIncident_sessions (st : ServerState) (req : ChatRequest) (iid : String) :
    (handleOpenIncident st req iid).1.sessions = st.sessions := by
  show (update_incident st iid req.message).sessions = st.sessions
  exact update_incident_sessions st iid req.message

/-- Processing any message on a conversation with a live session either ends
the session (resolution or escalation) or continues the very same session:
the issue and category are unchanged and the attempt counter does not
decrease.  In particular `start_troubleshooting` is never reached while a
session is open. -/
theorem chat_session_continuation (o : Oracle) (st : ServerState) (req : ChatRequest)
    (sess : Session) (hsess : alGet st.sessions req.conversation_id = some sess) :
    alGet (chat o st req).1.sessions req.conversation_id = none ∨
      ∃ sess2, alGet (chat o st req).1.sessions req.conversation_id = some sess2 ∧
        sess2.issue = sess.issue ∧ sess2.category = sess.category ∧
        sess.attempts ≤ sess2.attempts := by
  have hsess1 : alGet (add_message st req.conversation_id "user" req.message req.user_id
      req.user_role).sessions req.conversation_id = some sess := hsess
  simp only [chat]
  split
  · exact Or.inr ⟨sess, hsess1, rfl, rfl, Nat.le_refl _⟩
  · split
    · exact Or.inr ⟨sess, hsess1, rfl, rfl, Nat.le_refl _⟩
    · split
      · refine Or.inr ⟨sess, ?_, rfl, rfl, Nat.le_refl _⟩
        rw [show ∀ st2 req2 iid2, (handleOpenIncident st2 req2 iid2).1.sessions =
          st2.sessions from fun st2 req2 iid2 => handleOpenIncident_sessions st2 req2 iid2]
        exact hsess1
      · split
        · simp only [handleTroubleshoot]
          split
          · exact Or.inl (alGet_alErase_self _ _)
          · split
            · exact Or.inl (alGet_alErase_self _ _)
            · right
              obtain ⟨sA, hA, hAi, hAc, hAn⟩ := attach_preserves _
                req.conversation_id req.message sess hsess1
              obtain ⟨sB, hB, hBi, hBc, hBn⟩ := addstep_preserves _
                req.conversation_id _ "" sA hA
              refine ⟨sB, hB, ?_, ?_, ?_⟩
              · rw [hBi, hAi]
              · rw [hBc, hAc]
              · rw [hBn, hAn]
                exact Nat.le_succ _
        · rename_i hnone
          rw [hsess1] at hnone
          cases hnone

/-! ### Each non-landlord branch appends its reply as the final message -/

theorem last_handleEscalationConfirm (o : Oracle) (st : ServerState) (req : ChatRequest) :
    ((handleEscalationConfirm o st req).1.conversations req.conversation_id).getLast? =
      some { role := "assistant", content := (handleEscalationConfirm o st req).2.response,
             sender_id := "ai-assistant", sender_type := "AI" } := by
  simp only [handleEscalationConfirm]
  exact last_add_message _ _ _ _ _ _

theorem last_handleOpenIncident (st : ServerState) (req : ChatRequest) (iid : String) :
    ((handleOpenIncident st req iid).1.conversations req.conversation_id).getLast? =
      some { role := "assistant", content := (handleOpenIncident st req iid).2.response,
             sender_id := "ai-assistant", sender_type := "AI" } := by
  simp only [handleOpenIncident]
  exact last_add_message _ _ _ _ _ _

theorem last_handleTroubleshoot (o : Oracle) (st : ServerState) (req : ChatRequest) :
    ((handleTroubleshoot o st req).1.conversations req.conversation_id).getLast? =
      some { role := "assistant", content := (handleTroubleshoot o st req).2.response,
             sender_id := "ai-assistant", sender_type := "AI" } := by
  simp only [handleTroubleshoot]
  split
  · exact last_add_message _ _ _ _ _ _
  · split
    · exact last_add_message _ _ _ _ _ _
    · exact last_add_message _ _ _ _ _ _

theorem last_freshFallbackReply (o : Oracle) (st : ServerState) (req : ChatRequest) :
    ((freshFallbackReply o st req).1.conversations req.conversation_id).getLast? =
      some { role := "assistant", content := (freshFallbackReply o st req).2.response,
             sender_id := "ai-assistant", sender_type := "AI" } := by
  simp only [freshFallbackReply]
  exact last_add_message _ _ _ _ _ _

theorem last_handleFresh (o : Oracle) (st : ServerState) (req : ChatRequest) :
    ((handleFresh o st req).1.conversations req.conversation_id).getLast? =
      some { role := "assistant", content := (handleFresh o st req).2.response,
             sender_id := "ai-assistant", sender_type := "AI" } := by
  simp only [handleFresh]
  split
  · exact last_add_message _ _ _ _ _ _
  · split
    · exact last_add_message _ _ _ _ _ _
    · split
      · split
        · exact last_add_message _ _ _ _ _ _
        · exact last_freshFallbackReply _ _ _
      · split
        · split
          · exact last_add_message _ _ _ _ _ _
          · exact last_freshFallbackReply _ _ _
        · exact last_freshFallbackReply _ _ _

/-! ### The claims -/

/-- Claim C8: for every chat request with user_role=LANDLORD, the returned
response text is empty, incident_created is false, no incident id is
returned, and neither the incident store nor the session store is modified;
the inbound landlord message is still appended to the conversation first. -/
theorem C8_landlord_short_circuit (o : Oracle) (st : ServerState) (req : ChatRequest)
    (h : req.user_role = "LANDLORD") :
    (chat o st req).2 = { response := "", sources := none, incident_created := false,
                          incident_id := none } ∧
      (chat o st req).1.incidents = st.incidents ∧
      (chat o st req).1.sessions = st.sessions ∧
      (chat o st req).1.conversations req.conversation_id =
        st.conversations req.conversation_id ++
          [{ role := "user", content := req.message, sender_id := req.user_id,
             sender_type := req.user_role }] := by
  simp only [chat, h, beq_self_eq_true, if_true]
  refine ⟨by trivial, by trivial, by trivial, ?_⟩
  simp [add_message]

/-- Witness for Claim C8 at a concrete landlord request. -/
theorem C8_landlord_short_circuit_witness :
    (chat oracleNoLLM initState
        { conversation_id := "c8", property_id := "prop1", user_id := "landlord1",
          user_role := "LANDLORD", message := "hello" }).2 =
      { response := "", sources := none, incident_created := false, incident_id := none } ∧
      (chat oracleNoLLM initState
        { conversation_id := "c8", property_id := "prop1", user_id := "landlord1",
          user_role := "LANDLORD", message := "hello" }).1.incidents = initState.incidents ∧
      (chat oracleNoLLM initState
        { conversation_id := "c8", property_id := "prop1", user_id := "landlord1",
          user_role := "LANDLORD", message := "hello" }).1.sessions = initState.sessions ∧
      (chat oracleNoLLM initState
        { conversation_id := "c8", property_id := "prop1", user_id := "landlord1",
          user_role := "LANDLORD", message := "hello" }).1.conversations "c8" =
        initState.conversations "c8" ++
          [{ role := "user", content := "hello", sender_id := "landlord1",
             sender_type := "LANDLORD" }] :=
  C8_landlord_short_circuit oracleNoLLM initState
    { conversation_id := "c8", property_id := "prop1", user_id := "landlord1",
      user_role := "LANDLORD", message := "hello" } rfl

/-- Counterexample to Claim C7 as stated: after a LANDLORD request the
conversation's last message is the inbound user message, not an appended
assistant reply (the landlord branch returns without appending anything). -/
theorem C7_counterexample :
    (chat oracleNoLLM initState
        { conversation_id := "c7", property_id := "prop1", user_id := "landlord1",
          user_role := "LANDLORD", message := "hello" }).2.response = "" ∧
      ((chat oracleNoLLM initState
        { conversation_id := "c7", property_id := "prop1", user_id := "landlord1",
          user_role := "LANDLORD", message := "hello" }).1.conversations "c7").getLast? =
        some { role := "user", content := "hello", sender_id := "landlord1",
               sender_type := "LANDLORD" } ∧
      ((chat oracleNoLLM initState
        { conversation_id := "c7", property_id := "prop1", user_id := "landlord1",
          user_role := "LANDLORD", message := "hello" }).1.conversations "c7").length = 1 := by
  refine ⟨rfl, ?_, ?_⟩ <;> decide

/-- Claim C7 (amended): every branch except the landlord short-circuit
appends the assistant's reply before returning, so for every non-landlord
request the conversation's last message after `chat` is an assistant message
whose content is the returned response; for landlord requests the last
message is the inbound user message. -/
theorem C7_reply_is_last_message :
    (∀ (o : Oracle) (st : ServerState) (req : ChatRequest),
      (req.user_role == "LANDLORD") = false →
      ((chat o st req).1.conversations req.conversation_id).getLast? =
        some { role := "assistant", content := (chat o st req).2.response,
               sender_id := "ai-assistant", sender_type := "AI" }) ∧
    (∀ (o : Oracle) (st : ServerState) (req : ChatRequest),
      (req.user_role == "LANDLORD") = true →
      ((chat o st req).1.conversations req.conversation_id).getLast? =
        some { role := "user", content := req.message, sender_id := req.user_id,
               sender_type := req.user_role }) := by
  constructor
  · intro o st req h
    simp only [chat, h, Bool.false_eq_true, if_false]
    split
    · exact last_handleEscalationConfirm _ _ _
    · split
      · exact last_handleOpenIncident _ _ _
      · split
        · exact last_handleTroubleshoot _ _ _
        · exact last_handleFresh _ _ _
  · intro o st req h
    simp only [chat, h, if_true]
    exact last_add_message _ _ _ _ _ _

/-- Witness for Claim C7 (amended) at a concrete tenant request. -/
theorem C7_reply_is_last_message_witness :
    ((chat oracleNoLLM initState reqIssue).1.conversations reqIssue.conversation_id).getLast? =
      some { role := "assistant", content := (chat oracleNoLLM initState reqIssue).2.response,
             sender_id := "ai-assistant", sender_type := "AI" } :=
  C7_reply_is_last_message.1 oracleNoLLM initState reqIssue (by decide)

/-- Claim C2: in every reachable state, each conversation has at most one
incident with awaiting_more_info=true and at most one troubleshooting
session entry in the session store; moreover, a request on a conversation
with a live session never creates a fresh session: the session is either
removed or continued with the same issue and category and a non-decreasing
attempt counter. -/
theorem C2_at_most_one_open_incident_and_session (st : ServerState) (h : Reachable st)
    (c : String) :
    st.incidents.countP (fun i => i.conversation_id == c && i.awaiting_more_info) ≤ 1 ∧
      countKey st.sessions c ≤ 1 ∧
      (∀ (o : Oracle) (req : ChatRequest) (sess : Session),
        alGet st.sessions req.conversation_id = some sess →
        alGet (chat o st req).1.sessions req.conversation_id = none ∨
          ∃ sess2, alGet (chat o st req).1.sessions req.conversation_id = some sess2 ∧
            sess2.issue = sess.issue ∧ sess2.category = sess.category ∧
            sess.attempts ≤ sess2.attempts) := by
  obtain ⟨hn, hs⟩ := reachable_inv st h
  refine ⟨?_, hs c, fun o req sess hsess => chat_session_continuation o st req sess hsess⟩
  rw [countP_open_of_noOpen st hn c]
  exact Nat.zero_le 1

/-- Witness for Claim C2 at the reachable state after two chat requests. -/
theorem C2_at_most_one_open_incident_and_session_witness :
    trace2.1.incidents.countP
        (fun i => i.conversation_id == "conv1" && i.awaiting_more_info) ≤ 1 ∧
      countKey trace2.1.sessions "conv1" ≤ 1 ∧
      (∀ (o : Oracle) (req : ChatRequest) (sess : Session),
        alGet trace2.1.sessions req.conversation_id = some sess →
        alGet (chat o trace2.1 req).1.sessions req.conversation_id = none ∨
          ∃ sess2, alGet (chat o trace2.1 req).1.sessions req.conversation_id = some sess2 ∧
            sess2.issue = sess.issue ∧ sess2.category = sess.category ∧
            sess.attempts ≤ sess2.attempts) :=
  C2_at_most_one_open_incident_and_session trace2.1
    (Reachable.step oracleNoLLM reqStill (Reachable.step oracleNoLLM reqIssue Reachable.init))
    "conv1"

/-- Claim C9: in every reachable state no incident has
awaiting_more_info=true (creation sets it false, update only clears it),
hence `find_open_incident` returns none for every conversation and the
open-incident continuation branch of `chat` can never be entered. -/
theorem C9_no_awaiting_more_info (st : ServerState) (h : Reachable st) :
    (∀ i ∈ st.incidents, i.awaiting_more_info = false) ∧
      (∀ c, find_open_incident st c = none) := by
  obtain ⟨hn, _⟩ := reachable_inv st h
  exact ⟨hn, fun c => find_open_of_noOpen st hn c⟩

/-- Witness for Claim C9 at the reachable state after three chat requests
(which contains one incident). -/
theorem C9_no_awaiting_more_info_witness :
    (∀ i ∈ trace3.1.incidents, i.awaiting_more_info = false) ∧
      (∀ c, find_open_incident trace3.1 c = none) :=
  C9_no_awaiting_more_info trace3.1
    (Reachable.step oracleNoLLM reqStill (Reachable.step oracleNoLLM reqStill
      (Reachable.step oracleNoLLM reqIssue Reachable.init)))

/-- History used by Claim C10: tenant issue report, assistant escalation
offer, tenant confirmation. -/
def offerHistory : List Message :=
  [{ role := "user", content := "the AC is broken", sender_id := "tenant1",
     sender_type := "TENANT" },
   { role := "assistant", content := "Would you like me to escalate this to your landlord?",
     sender_id := "ai-assistant", sender_type := "AI" },
   { role := "user", content := "yes", sender_id := "tenant1", sender_type := "TENANT" }]

/-- Claim C10: `is_escalation_request` matches its keywords as
case-insensitive substrings, so any message containing "ok" — such as
"it\x27s still broken" or "the AC is broken" (inside "broken") — classifies as
an escalation request; consequently the escalation-confirmation branch's
reverse search skips a prior tenant message like "the AC is broken" and
falls back to the generic description. -/
theorem C10_escalation_request_substring :
    (∀ msg : String, strContains (trimStr (lowerStr msg)) "ok" = true →
      is_escalation_request msg = true) ∧
    is_escalation_request "it\x27s still broken" = true ∧
    is_escalation_request "the AC is broken" = true ∧
    escalationIssueDescription offerHistory "yes" = "User requested escalation: yes" := by
  refine ⟨?_, by decide, by decide, by decide⟩
  intro msg h
  unfold is_escalation_request
  exact List.any_eq_true.mpr ⟨"ok", by decide, h⟩

/-- Witness for Claim C10: instantiating the substring fact on a concrete
message containing "ok". -/
theorem C10_escalation_request_substring_witness :
    is_escalation_request "it is still broken" = true :=
  C10_escalation_request_substring.1 "it is still broken" (by decide)

/-- Counterexample to Claim C6 as stated: when the oracle call raises,
`triage_issue` does not degrade to the keyword fallback with confidence 0.6;
it returns the static except-branch result with confidence 0.3 and category
OTHER (the keyword fallback would give HEATER / high / 0.6 here). -/
theorem C6_counterexample :
    (triageIssue oracleRaise "the heater is broken").confidence = 0.3 ∧
      (parse_triage_fallback "" "the heater is broken").confidence = 0.6 ∧
      triageIssue oracleRaise "the heater is broken" ≠
        parse_triage_fallback "" "the heater is broken" ∧
      (triageIssue oracleRaise "the heater is broken").category = "OTHER" ∧
      (parse_triage_fallback "" "the heater is broken").category = "HEATER" := by
  refine ⟨rfl, rfl, by decide, rfl, by decide⟩

/-- Claim C6 (amended): the keyword fallback (confidence exactly 0.6,
severity high/low/medium, keyword category) is reached only when the oracle
response contains no braced block; an oracle call that raises, or a braced
block on which `json.loads` raises, instead yields the static
OTHER/medium/0.3 result. -/
theorem C6_triage_fallback_selection :
    (∀ (o : Oracle) (desc s : String), o.llmAvailable = true →
      o.triageRaw desc = Except.ok s → jsonMatch s = none →
      triageIssue o desc = parse_triage_fallback s desc) ∧
    (∀ (o : Oracle) (desc : String), o.llmAvailable = true →
      o.triageRaw desc = Except.error () →
      triageIssue o desc = triageExceptResult) ∧
    (∀ (o : Oracle) (desc s block : String), o.llmAvailable = true →
      o.triageRaw desc = Except.ok s → jsonMatch s = some block →
      o.jsonLoads block = none →
      triageIssue o desc = triageExceptResult) ∧
    (∀ r d : String, (parse_triage_fallback r d).confidence = 0.6 ∧
      ((parse_triage_fallback r d).severity = "high" ∨
        (parse_triage_fallback r d).severity = "low" ∨
        (parse_triage_fallback r d).severity = "medium")) := by
  refine ⟨?_, ?_, ?_, ?_⟩
  · intro o desc s h1 h2 h3
    simp [triageIssue, h1, h2, h3]
  · intro o desc h1 h2
    simp [triageIssue, h1, h2]
  · intro o desc s block h1 h2 h3 h4
    simp [triageIssue, h1, h2, h3, h4]
  · intro r d
    refine ⟨rfl, ?_⟩
    simp only [parse_triage_fallback]
    split
    · exact Or.inl rfl
    · split
      · exact Or.inr (Or.inl rfl)
      · exact Or.inr (Or.inr rfl)

/-- Witness for Claim C6 (amended): a concrete oracle response with no
braced block reaches the keyword fallback. -/
theorem C6_triage_fallback_selection_witness :
    triageIssue oracleNoJson "the heater is broken" =
      parse_triage_fallback "no structured data here" "the heater is broken" :=
  C6_triage_fallback_selection.1 oracleNoJson "the heater is broken"
    "no structured data here" rfl rfl (by decide)

/-- Claim C5: an unfixable tenant message (e.g. "my lockbox was stolen")
processed with no open incident and no active session creates an incident
immediately with incident_created=true and never creates a troubleshooting
session; the unfixable check precedes the generic issue-report check, so
this holds whether or not the message also matches issue keywords. -/
theorem C5_unfixable_immediate_incident (o : Oracle) (st : ServerState) (req : ChatRequest)
    (hu : is_unfixable_issue req.message = true)
    (hopen : find_open_incident st req.conversation_id = none)
    (hsess : alGet st.sessions req.conversation_id = none)
    (hrole : (req.user_role == "LANDLORD") = false) :
    (chat o st req).2.incident_created = true ∧
      (chat o st req).1.incidents.length = st.incidents.length + 1 ∧
      alGet (chat o st req).1.sessions req.conversation_id = none := by
  have hopen2 : find_open_incident
      (add_message st req.conversation_id "user" req.message req.user_id req.user_role)
      req.conversation_id = none := hopen
  have hsess2 : alGet
      (add_message st req.conversation_id "user" req.message req.user_id
        req.user_role).sessions req.conversation_id = none := hsess
  simp only [chat, hrole, Bool.false_eq_true, if_false]
  split
  · obtain ⟨h1, h2, h3⟩ := handleEscalationConfirm_facts o
      (add_message st req.conversation_id "user" req.message req.user_id req.user_role) req
    refine ⟨h1, h2, ?_⟩
    rw [h3]
    exact hsess2
  · simp only [hopen2, hsess2]
    obtain ⟨f1, f2, f3⟩ := handleFresh_unfixable o
      (add_message st req.conversation_id "user" req.message req.user_id req.user_role)
      req hu
    refine ⟨f1, f2, ?_⟩
    rw [f3]
    exact hsess2

/-- Unfixable issue report used by the Claim C5 witness. -/
def reqStolen : ChatRequest :=
  { conversation_id := "c5", property_id := "prop1", user_id := "tenant1",
    user_role := "TENANT", message := "my lockbox was stolen" }

/-- Witness for Claim C5 at a concrete unfixable first message. -/
theorem C5_unfixable_immediate_incident_witness :
    (chat oracleNoLLM initState reqStolen).2.incident_created = true ∧
      (chat oracleNoLLM initState reqStolen).1.incidents.length =
        initState.incidents.length + 1 ∧
      alGet (chat oracleNoLLM initState reqStolen).1.sessions "c5" = none :=
  C5_unfixable_immediate_incident oracleNoLLM initState reqStolen (by decide) rfl rfl rfl

/-- Counterexample to Claim C4 as stated: after a fixable issue report and
one unresolved reply, no assistant message in the history contains an
escalation-offer phrase, yet sending "yes" creates an incident (through the
troubleshooting-escalation branch, whose attempts counter is already 2). -/
theorem C4_counterexample :
    historyHasOffer trace2.1 "conv1" = false ∧
      (chat oracleNoLLM trace2.1 reqYes).2.incident_created = true := by
  constructor
  · decide
  · decide

/-- Claim C4 (amended): the escalation-confirmation branch fires only when
the message is an escalation confirmation and the most recent assistant
message offered escalation; when the history contains no assistant
escalation offer AND the conversation has no active troubleshooting
session, sending "yes" creates no incident through any branch. -/
theorem C4_escalation_confirmation_guard (o : Oracle) (st : ServerState)
    (cid pid uid role : String) (hoffer : historyHasOffer st cid = false)
    (hsess : alGet st.sessions cid = none) :
    (chat o st ⟨cid, pid, uid, role, "yes"⟩).2.incident_created = false ∧
      (chat o st ⟨cid, pid, uid, role, "yes"⟩).1.incidents.length =
        st.incidents.length := by
  by_cases hrole : (role == "LANDLORD") = true
  · simp only [chat, hrole, if_true]
    exact ⟨by trivial, by trivial⟩
  · have hrole2 : (role == "LANDLORD") = false := by
      simpa using hrole
    have hlmoe := lmoe_false_of_no_offer st cid "yes" uid role hoffer
    have hsess2 : alGet (add_message st cid "user" "yes" uid role).sessions cid = none :=
      hsess
    simp only [chat, hrole2, Bool.false_eq_true, if_false, hlmoe, Bool.and_false]
    split
    · exact handleOpenIncident_facts _ _ _
    · simp only [hsess2]
      obtain ⟨p1, p2⟩ := handleFresh_plain o (add_message st cid "user" "yes" uid role)
        ⟨cid, pid, uid, role, "yes"⟩
        (by show is_question "yes" = false; decide)
        (by show is_issue_report "yes" = false; decide)
        (by show is_unfixable_issue "yes" = false; decide)
      refine ⟨p1, ?_⟩
      rw [p2]
      rfl

/-- Witness for Claim C4 (amended) on the empty conversation. -/
theorem C4_escalation_confirmation_guard_witness :
    (chat oracleNoLLM initState ⟨"c4", "prop1", "tenant1", "TENANT", "yes"⟩).2.incident_created =
      false ∧
      (chat oracleNoLLM initState
        ⟨"c4", "prop1", "tenant1", "TENANT", "yes"⟩).1.incidents.length =
        initState.incidents.length :=
  C4_escalation_confirmation_guard oracleNoLLM initState "c4" "prop1" "tenant1" "TENANT"
    (by decide) rfl

/-- Claim C3: during active troubleshooting, negative resolution indicators
take precedence over positive phrases: a message with a negative indicator
never ends the session via the resolved branch (with attempts below the
threshold the session continues and no incident is created), while a
message with a positive phrase and no negative indicator ends the session
with the closing acknowledgment and no incident side effects; the mixed
message "it works but still doesn\x27t turn off" matches both keyword sets. -/
theorem C3_negative_overrides_positive :
    (∀ (o : Oracle) (st : ServerState) (req : ChatRequest) (sess : Session),
      alGet st.sessions req.conversation_id = some sess →
      negative_indicators.any
        (fun n => strContains (trimStr (lowerStr req.message)) n) = true →
      sess.attempts < 2 →
      (alGet (handleTroubleshoot o st req).1.sessions req.conversation_id).isSome = true ∧
        (handleTroubleshoot o st req).2.incident_created = false ∧
        (handleTroubleshoot o st req).1.incidents = st.incidents) ∧
    (∀ (o : Oracle) (st : ServerState) (req : ChatRequest) (sess : Session),
      alGet st.sessions req.conversation_id = some sess →
      negative_indicators.any
        (fun n => strContains (trimStr (lowerStr req.message)) n) = false →
      positive_indicators.any
        (fun p => strContains (trimStr (lowerStr req.message)) p) = true →
      alGet (handleTroubleshoot o st req).1.sessions req.conversation_id = none ∧
        (handleTroubleshoot o st req).2.incident_created = false ∧
        (handleTroubleshoot o st req).1.incidents = st.incidents ∧
        (handleTroubleshoot o st req).2.response =
          "Great! I\x27m glad that worked. If you need anything else, just let me know!") ∧
    negative_indicators.any
      (fun n => strContains (trimStr (lowerStr "it works but still doesn\x27t turn off")) n) =
      true ∧
    positive_indicators.any
      (fun p => strContains (trimStr (lowerStr "it works but still doesn\x27t turn off")) p) =
      true := by
  refine ⟨?_, ?_, by decide, by decide⟩
  · intro o st req sess hsess hneg hlt
    simp only [handleTroubleshoot, hneg, Bool.not_true, Bool.false_and, Bool.and_false,
      Bool.false_eq_true, if_false]
    rw [attach_attempts st req.conversation_id req.message sess hsess]
    rw [if_neg (by omega)]
    refine ⟨?_, by trivial, by trivial⟩
    show (alGet (alModify (alModify st.sessions req.conversation_id _)
      req.conversation_id _) req.conversation_id).isSome = true
    rw [alGet_alModify_self, alGet_alModify_self, hsess]
    rfl
  · intro o st req sess hsess hneg hpos
    simp only [handleTroubleshoot, hneg, hpos, Bool.not_false, Bool.true_and,
      Bool.and_true, if_true]
    refine ⟨?_, by trivial, by trivial, by trivial⟩
    show alGet (alErase (add_message st req.conversation_id "assistant" _ "ai-assistant"
      "AI").sessions req.conversation_id) req.conversation_id = none
    exact alGet_alErase_self _ _

/-- Session with one attempt, used by the Claim C3 witness. -/
def youngSession : Session :=
  { issue := "the AC is broken", category := "OTHER", attempts := 1,
    steps_tried := [{ step := fallbackSteps, tenant_response := "" }] }

/-- State holding `youngSession`, used by the Claim C3 witness. -/
def youngState : ServerState :=
  { initState with sessions := [("conv1", youngSession)] }

/-- Mixed-resolution reply used by the Claim C3 witness. -/
def reqMixed : ChatRequest :=
  { conversation_id := "conv1", property_id := "prop1", user_id := "tenant1",
    user_role := "TENANT", message := "it works but still doesn\x27t turn off" }

/-- Witness for Claim C3: the mixed message leaves the one-attempt session
alive and creates nothing. -/
theorem C3_negative_overrides_positive_witness :
    (alGet (handleTroubleshoot oracleNoLLM youngState reqMixed).1.sessions
        "conv1").isSome = true ∧
      (handleTroubleshoot oracleNoLLM youngState reqMixed).2.incident_created = false ∧
      (handleTroubleshoot oracleNoLLM youngState reqMixed).1.incidents =
        youngState.incidents :=
  C3_negative_overrides_positive.1 oracleNoLLM youngState reqMixed youngSession rfl
    (by decide) (by decide)

/-- Claim C1: while a troubleshooting session is active, an unresolved
tenant message escalates exactly when the attempt counter has reached 2;
concretely, a fresh fixable issue followed by two "still broken" replies
creates an incident on the second reply whose description carries a
troubleshooting summary of exactly 2 steps, while after only one unresolved
reply no incident exists and a further troubleshooting step is issued. -/
theorem C1_escalation_threshold :
    (∀ (o : Oracle) (st : ServerState) (req : ChatRequest) (sess : Session),
      alGet st.sessions req.conversation_id = some sess →
      resolutionPositive req.message = false →
      ((handleTroubleshoot o st req).2.incident_created = true ↔ 2 ≤ sess.attempts)) ∧
    (trace1.2.incident_created = false ∧
      (alGet trace1.1.sessions "conv1").map Session.attempts = some 1 ∧
      trace2.2.incident_created = false ∧
      trace2.1.incidents = [] ∧
      (alGet trace2.1.sessions "conv1").map Session.attempts = some 2 ∧
      trace2.2.response = "Let me help you troubleshoot this further. Try these steps:\n\n" ++
        fallbackSteps ++ "\n\nLet me know if this helps or if the issue persists." ∧
      trace3.2.incident_created = true ∧
      trace3.1.incidents.map Incident.description =
        ["the AC is broken\n\n=== TROUBLESHOOTING ATTEMPTS ===\n" ++
          summaryOfSession escalatedSession] ∧
      escalatedSession.steps_tried.length = 2 ∧
      alGet trace3.1.sessions "conv1" = none) := by
  constructor
  · intro o st req sess hsess hres
    have hguard : (!(negative_indicators.any
        (fun n => strContains (trimStr (lowerStr req.message)) n)) &&
        positive_indicators.any
          (fun p => strContains (trimStr (lowerStr req.message)) p)) = false := hres
    simp only [handleTroubleshoot]
    cases hneg : negative_indicators.any
        (fun n => strContains (trimStr (lowerStr req.message)) n) with
    | true =>
      simp only [hneg, Bool.not_true, Bool.false_and, Bool.and_false,
        Bool.false_eq_true, if_false]
      rw [attach_attempts st req.conversation_id req.message sess hsess]
      by_cases hatt : 2 ≤ sess.attempts
      · simp [hatt]
      · simp [hatt]
    | false =>
      have hpos : positive_indicators.any
          (fun p => strContains (trimStr (lowerStr req.message)) p) = false := by
        rw [hneg] at hguard
        simpa using hguard
      simp only [hneg, hpos, Bool.not_false, Bool.true_and, Bool.false_and,
        Bool.and_false, Bool.false_eq_true, if_false]
      rw [attach_attempts st req.conversation_id req.message sess hsess]
      by_cases hatt : 2 ≤ sess.attempts
      · simp [hatt]
      · simp [hatt]
  · refine ⟨by decide, by decide, by decide, by decide, by decide, by decide, by decide,
      by decide, by decide, by decide⟩

/-- State holding `escalatedSession`, used by the Claim C1 witness. -/
def sessionState : ServerState :=
  { initState with sessions := [("conv1", escalatedSession)] }

/-- Witness for Claim C1: with the attempt counter at 2, an unresolved reply
escalates. -/
theorem C1_escalation_threshold_witness :
    (handleTroubleshoot oracleNoLLM sessionState reqStill).2.incident_created = true ↔
      2 ≤ escalatedSession.attempts :=
  C1_escalation_threshold.1 oracleNoLLM sessionState reqStill escalatedSession rfl
    (by decide)

end HomeGuard
